import Mathlib

/-! Viewport behaviour of `MaplibreMap.jsx`.

A shallow embedding of `src/components/Map/MaplibreMap.jsx`:

* `convertBounds`                       (lines 49-54)
* `MapBoundaryEnforcer`                 (lines 17-47): effect, load handler, cleanup
* `MapSnappingEventListener`            (lines 56-78): the "map.snapTo" handler
* `MaplibreMap`                         (lines 80-142): initial view state, the
  geolocation effect with its two callbacks, and `onMove`

JavaScript values are a small tree type `Val`.  The component never computes with
numbers, it only stores them and passes them on, so numbers are rationals here.
Calls into collaborators (the map engine, the snackbar, React's state setter, the
console) are recorded in order in `World.calls`.  Whether an engine call throws is
not decided by this file: it is a parameter (`EngineCall`).  The render-time
`console.log("render Maplibre map")` is not tracked, since when React renders is
not decided by this file either.

The libraries the component calls are not part of the repository.  What they do
with a call is taken from their documented contracts and stated where it is used:
the engine's event registry (`on` adds a listener, `off(type, listener)` removes
the listener passed, a signal runs the registered listeners), DOM event dispatch,
the `useEventListener` hook (adds its listener on mount, removes it on unmount) and
React's state setter.
-/

namespace MaplibreMap

/-! ## Values -/

/-- JavaScript values that reach the component. -/
inductive Val where
  | undefined
  | null
  | bool (b : Bool)
  | num (x : ℚ)
  | str (s : String)
  | arr (xs : List Val)
  | obj (fields : List (String × Val))

instance : Inhabited Val := ⟨Val.undefined⟩

/-- The value thrown by the language itself (reading a property of `undefined` or
`null`, destructuring something that is not iterable, calling a non-function). -/
def typeError : Val := Val.obj [("name", Val.str "TypeError")]

/-- Property read `v.k`, for the property names this component reads (`detail`,
`lat`, `lng`, `coords`, `longitude`, `latitude`, `viewState`, `bounds`, `zoom`,
`padding`): none of them is a built-in property of numbers, strings or arrays, so
only objects can have them.  Reading a property of `undefined` or `null` throws. -/
def getProp (v : Val) (k : String) : Except Val Val :=
  match v with
  | Val.undefined => Except.error typeError
  | Val.null => Except.error typeError
  | Val.obj fields => Except.ok ((fields.lookup k).getD Val.undefined)
  | _ => Except.ok Val.undefined

/-- The elements an array destructuring pattern draws from a value: arrays and
strings are iterable, the other values of `Val` are not. -/
def iterate (v : Val) : Except Val (List Val) :=
  match v with
  | Val.arr xs => Except.ok xs
  | Val.str s => Except.ok (s.toList.map fun c => Val.str (String.singleton c))
  | _ => Except.error typeError

/-- Lines 49-54: `([w, s, e, n]) => [[w, s], [e, n]]`.  A pattern variable with no
element to bind is `undefined`. -/
def convertBounds (bounds : Val) : Except Val Val :=
  match iterate bounds with
  | Except.error err => Except.error err
  | Except.ok xs =>
    Except.ok (Val.arr [Val.arr [xs.getD 0 Val.undefined, xs.getD 1 Val.undefined],
                        Val.arr [xs.getD 2 Val.undefined, xs.getD 3 Val.undefined]])


/-! ## Collaborators and state -/

/-- A call into a collaborator, as the component issues it. -/
inductive Call where
  | console (method : String) (args : List Val)
  | setMaxBounds (bounds : Val)
  | flyTo (options : Val)
  | enqueueSnackbar (message : Val) (options : Val)
  | setViewState (next : Val)
  | getCurrentPosition (options : Val)
  /-- An exception that left an event listener and was reported by the host. -/
  | uncaught (err : Val)

/-- How an engine method behaves when called: given the calls made so far and the
argument, `some err` when the call throws `err`, `none` when it returns. -/
abbrev EngineCall := List Call → Val → Option Val

/-- The underlying map instance (`mapRef.getMap()`). -/
structure Engine where
  setMaxBounds : EngineCall

/-- The object `useMap().current`.  `getMap = none`: `getMap` is not a function;
`getMap = some none`: it returns a falsy value.  `flyTo = none`: `flyTo` is not
callable. -/
structure MapRef where
  getMap : Option (Option Engine)
  flyTo : Option EngineCall

/-- A listener registered for the engine's "load" signal: the closure of lines
29-37, which captures `map`. -/
structure LoadListener where
  id : Nat
  map : Engine

/-- A listener registered for the "map.snapTo" signal: the closure of lines 59-76,
which captures `map = useMap().current`. -/
structure SnapListener where
  id : Nat
  map : Option MapRef

/-- Everything the component reads or changes. -/
structure World where
  /-- Collaborator calls, oldest first. -/
  calls : List Call
  /-- The `viewState` cell of `MaplibreMap` (line 83). -/
  viewState : Val
  /-- Whether `MaplibreMap` is mounted. -/
  mapMounted : Bool
  /-- The engine's listeners for "load", in registration order. -/
  loadListeners : List LoadListener
  /-- The listeners for "map.snapTo", in registration order. -/
  snapListeners : List SnapListener
  /-- The identity the next registered listener gets. -/
  nextListener : Nat

/-- A JavaScript computation: it changes the world and returns or throws.  The
changes made before a throw stay. -/
def JS (α : Type) : Type := World → Except Val α × World

namespace JS

/-- Return a value. -/
def ret {α : Type} (a : α) : JS α := fun w => (Except.ok a, w)

/-- Sequencing: a throw in the first part skips the second. -/
def andThen {α β : Type} (m : JS α) (f : α → JS β) : JS β := fun w =>
  match m w with
  | (Except.ok a, w1) => f a w1
  | (Except.error err, w1) => (Except.error err, w1)

/-- The `try ... catch (e) ...` statement. -/
def tryCatch {α : Type} (body : JS α) (handler : Val → JS α) : JS α := fun w =>
  match body w with
  | (Except.ok a, w1) => (Except.ok a, w1)
  | (Except.error err, w1) => handler err w1

/-- Use the result of a pure step that may throw. -/
def lift {α : Type} (r : Except Val α) : JS α := fun w => (r, w)

/-- Record a call that returns. -/
def emit (c : Call) : JS Unit := fun w => (Except.ok (), { w with calls := w.calls ++ [c] })

end JS

instance : Monad JS where
  pure := JS.ret
  bind := JS.andThen

/-- Call an engine method: the call is made, then it returns or throws. -/
def callEngine (mk : Val → Call) (method : EngineCall) (arg : Val) : JS Unit := fun w =>
  match method w.calls arg with
  | none => (Except.ok (), { w with calls := w.calls ++ [mk arg] })
  | some err => (Except.error err, { w with calls := w.calls ++ [mk arg] })

/-- React's state setter for `viewState`: the call replaces the cell with `next`;
React discards an update for a component that is no longer mounted. -/
def setViewState (next : Val) : JS Unit := fun w =>
  (Except.ok (), { w with calls := w.calls ++ [Call.setViewState next],
                          viewState := if w.mapMounted then next else w.viewState })

/-- Run listeners in order; an exception leaves the loop (the engine's `fire`). -/
def runAll : List (JS Unit) → JS Unit
  | [] => JS.ret ()
  | h :: hs => JS.andThen h fun _ => runAll hs

/-- Run listeners in order; an exception is reported by the host and the next
listener still runs (DOM event dispatch). -/
def reportAll : List (JS Unit) → JS Unit
  | [] => JS.ret ()
  | h :: hs =>
    JS.andThen (JS.tryCatch h fun err => JS.emit (Call.uncaught err)) fun _ => reportAll hs

/-! ## MapBoundaryEnforcer (lines 17-47) -/

/-- Lines 29-37: the "load" listener. -/
def loadHandler (map : Engine) (totalBounds : Val) : JS Unit := do
  JS.emit (Call.console "log" [Val.str "Map loaded, setting max bounds."])
  JS.tryCatch
    (do
      callEngine Call.setMaxBounds map.setMaxBounds totalBounds
      JS.emit (Call.console "log" [Val.str "Max bounds set successfully:", totalBounds]))
    (fun error => JS.emit (Call.console "error" [Val.str "Error setting max bounds:", error]))

/-- Lines 22-38: the effect.  It registers a new "load" listener when the map
instance can be reached; the result says whether a cleanup function was returned. -/
def enforcerEffect (mapRef : Option MapRef) : JS Bool := fun w =>
  match mapRef with
  | none => (Except.ok false, w)
  | some ref =>
    match ref.getMap with
    | some (some map) =>
      (Except.ok true,
        { w with loadListeners := w.loadListeners ++ [{ id := w.nextListener, map := map }],
                 nextListener := w.nextListener + 1 })
    | _ => (Except.ok false, w)

/-- The engine's `off(type, listener)`: it removes the registered listener that is
identical to the one passed.  When none is passed the argument is `undefined`,
which is not a registered listener, so nothing is found and nothing is removed. -/
def eventedOff (listeners : List LoadListener) (listener : Option Nat) : List LoadListener :=
  match listener with
  | none => listeners
  | some id =>
    match listeners.findIdx? (fun l => l.id == id) with
    | none => listeners
    | some i => listeners.eraseIdx i

/-- Lines 39-41: the cleanup, `map.off("load")`, which passes no listener. -/
def enforcerCleanup : JS Unit := fun w =>
  (Except.ok (), { w with loadListeners := eventedOff w.loadListeners none })

/-- Unmounting the enforcer: React runs the cleanup if the effect returned one. -/
def unmountEnforcer (hasCleanup : Bool) : JS Unit :=
  if hasCleanup then enforcerCleanup else JS.ret ()

/-- The engine delivers its "load" signal to the listeners registered at that time. -/
def fireLoad (totalBounds : Val) : JS Unit := fun w =>
  runAll (w.loadListeners.map fun l => loadHandler l.map totalBounds) w

/-- The "load" signal delivered `n` times. -/
def fireLoadTimes (totalBounds : Val) : Nat → JS Unit
  | 0 => JS.ret ()
  | n + 1 => JS.andThen (fireLoad totalBounds) fun _ => fireLoadTimes totalBounds n

/-! ## MapSnappingEventListener (lines 56-78) -/

/-- The call `map.flyTo(options)` of line 66, where `map` may be `undefined`. -/
def callFlyTo (map : Option MapRef) (options : Val) : JS Unit :=
  match map with
  | none => JS.lift (Except.error typeError)
  | some ref =>
    match ref.flyTo with
    | none => JS.lift (Except.error typeError)
    | some method => callEngine Call.flyTo method options

/-- Lines 59-76: the "map.snapTo" handler.  The parameter pattern
`{ detail: { lat, lng } }` is bound before the body runs, outside the `try`. -/
def snapHandler (map : Option MapRef) (event : Val) : JS Unit := do
  let detail ← JS.lift (getProp event "detail")
  let lat ← JS.lift (getProp detail "lat")
  let lng ← JS.lift (getProp detail "lng")
  JS.emit (Call.console "log" [Val.str "executing `map.snapTo` event with maplibre"])
  JS.tryCatch
    (callFlyTo map (Val.obj [("center", Val.arr [lng, lat]), ("zoom", Val.num 14)]))
    (fun e => do
      JS.emit (Call.console "error" [e])
      JS.emit (Call.enqueueSnackbar (Val.str "Unexpected error while attempting map navigation")
        (Val.obj [("variant", Val.str "error")])))

/-- The `useEventListener` hook on mount: it registers one listener for
"map.snapTo" and hands its identity to the cleanup. -/
def snappingEffect (map : Option MapRef) : JS Nat := fun w =>
  (Except.ok w.nextListener,
    { w with snapListeners := w.snapListeners ++ [{ id := w.nextListener, map := map }],
             nextListener := w.nextListener + 1 })

/-- The `useEventListener` hook on unmount: it removes the listener it registered. -/
def snappingCleanup (id : Nat) : JS Unit := fun w =>
  (Except.ok (), { w with snapListeners := w.snapListeners.filter fun l => l.id != id })

/-- A "map.snapTo" signal delivered to the listeners registered at that time. -/
def dispatchSnapTo (event : Val) : JS Unit := fun w =>
  reportAll (w.snapListeners.map fun l => snapHandler l.map event) w

/-- Signals delivered one after the other, in list order. -/
def dispatchAll : List Val → JS Unit
  | [] => JS.ret ()
  | event :: rest => JS.andThen (dispatchSnapTo event) fun _ => dispatchAll rest

/-! ## MaplibreMap (lines 80-142) -/

/-- The object literal `{ bounds: convertBounds(totalBounds), padding: 24 }` of lines
84-87, 106-109 and 121-124. -/
def boundsViewState (totalBounds : Val) : Except Val Val :=
  match convertBounds totalBounds with
  | Except.error err => Except.error err
  | Except.ok b => Except.ok (Val.obj [("bounds", b), ("padding", Val.num 24)])

/-- Line 83: the component as first rendered, before any effect has run. -/
def mountMap (totalBounds : Val) : Except Val World :=
  match boundsViewState totalBounds with
  | Except.error err => Except.error err
  | Except.ok v =>
    Except.ok { calls := [], viewState := v, mapMounted := true,
                loadListeners := [], snapListeners := [], nextListener := 0 }

/-- Lines 93-101: the success callback of `getCurrentPosition`. -/
def geoSuccess (position : Val) : JS Unit := do
  let coords ← JS.lift (getProp position "coords")
  let longitude ← JS.lift (getProp coords "longitude")
  let coords2 ← JS.lift (getProp position "coords")
  let latitude ← JS.lift (getProp coords2 "latitude")
  setViewState (Val.obj [("longitude", longitude), ("latitude", latitude),
                         ("zoom", Val.num 12), ("padding", Val.num 24)])

/-- Lines 102-110: the error callback of `getCurrentPosition`. -/
def geoError (totalBounds : Val) (error : Val) : JS Unit := do
  JS.emit (Call.console "error" [Val.str "Error getting user location:", error])
  let next ← JS.lift (boundsViewState totalBounds)
  setViewState next

/-- Lines 89-126: the geolocation effect, run once after mount.  `supported` is
`"geolocation" in navigator`. -/
def geolocationEffect (supported : Bool) (totalBounds : Val) : JS Unit :=
  if supported then
    JS.emit (Call.getCurrentPosition
      (Val.obj [("enableHighAccuracy", Val.bool true), ("timeout", Val.num 5000),
                ("maximumAge", Val.num 0)]))
  else do
    JS.emit (Call.console "warn" [Val.str "Geolocation is not supported by this browser."])
    let next ← JS.lift (boundsViewState totalBounds)
    setViewState next

/-- Line 133: `onMove={(evt) => setViewState(evt.viewState)}`. -/
def onMove (evt : Val) : JS Unit := do
  let next ← JS.lift (getProp evt "viewState")
  setViewState next

/-- The component `MaplibreMap` is unmounted. -/
def unmountMap : JS Unit := fun w => (Except.ok (), { w with mapMounted := false })

/-! ## Reading the call log -/

/-- The arguments of the `setMaxBounds` calls, oldest first. -/
def setMaxBoundsArgs (calls : List Call) : List Val :=
  calls.filterMap fun c => match c with
    | Call.setMaxBounds b => some b
    | _ => none

/-- The arguments of the `flyTo` calls, oldest first. -/
def flyToArgs (calls : List Call) : List Val :=
  calls.filterMap fun c => match c with
    | Call.flyTo o => some o
    | _ => none

/-- The notifications raised, oldest first. -/
def notifications (calls : List Call) : List (Val × Val) :=
  calls.filterMap fun c => match c with
    | Call.enqueueSnackbar m o => some (m, o)
    | _ => none

/-- The values passed to `setViewState`, oldest first. -/
def viewStateWrites (calls : List Call) : List Val :=
  calls.filterMap fun c => match c with
    | Call.setViewState v => some v
    | _ => none

/-! ## Sample inputs -/

/-- A bounding box `[west, south, east, north]` with west < east and south < north. -/
def sampleBounds : Val := Val.arr [Val.num (-10), Val.num 35, Val.num 5, Val.num 44]

/-- An engine whose `setMaxBounds` never throws. -/
def quietEngine : Engine := { setMaxBounds := fun _ _ => none }

/-- A map reference whose engine is reachable and whose `flyTo` never throws. -/
def quietRef : MapRef := { getMap := some (some quietEngine), flyTo := some fun _ _ => none }

/-- A map reference whose `flyTo` always throws the string "boom". -/
def throwingRef : MapRef :=
  { getMap := some (some quietEngine), flyTo := some fun _ _ => some (Val.str "boom") }

/-- An engine whose `setMaxBounds` always throws the string "boom". -/
def throwingEngine : Engine := { setMaxBounds := fun _ _ => some (Val.str "boom") }

/-- A world in which nothing has happened yet, with `viewState` as given. -/
def blankWorld (viewState : Val) : World :=
  { calls := [], viewState := viewState, mapMounted := true,
    loadListeners := [], snapListeners := [], nextListener := 0 }

/-- A geolocation position object with the given coordinates. -/
def positionOf (lon lat : Val) : Val :=
  Val.obj [("coords", Val.obj [("latitude", lat), ("longitude", lon)]),
           ("timestamp", Val.num 0)]

/-- A "map.snapTo" event whose detail is the given object. -/
def snapToEvent (detail : Val) : Val :=
  Val.obj [("type", Val.str "map.snapTo"), ("detail", detail)]

/-- Both children of the map are mounted (their effects run) and then unmounted
(their cleanups run). -/
def mountThenUnmountChildren (mapRef : Option MapRef) : JS Unit := do
  let hasCleanup ← enforcerEffect mapRef
  let listener ← snappingEffect mapRef
  unmountEnforcer hasCleanup
  snappingCleanup listener

/-! ## Theorems -/

/-- The "load" listener in closed form: it always returns, and it adds three calls. -/
theorem loadHandler_eq (map : Engine) (tb : Val) (w : World) :
    loadHandler map tb w =
      (Except.ok (), { w with calls := w.calls ++
        [Call.console "log" [Val.str "Map loaded, setting max bounds."], Call.setMaxBounds tb,
         match map.setMaxBounds
            (w.calls ++ [Call.console "log" [Val.str "Map loaded, setting max bounds."]]) tb with
         | none => Call.console "log" [Val.str "Max bounds set successfully:", tb]
         | some err => Call.console "error" [Val.str "Error setting max bounds:", err]] }) := by
  simp only [loadHandler, bind, JS.andThen, JS.emit, JS.tryCatch, callEngine]
  cases h : map.setMaxBounds
    (w.calls ++ [Call.console "log" [Val.str "Map loaded, setting max bounds."]]) tb <;> simp

/-- Running the "load" listeners of a list: every listener calls `setMaxBounds` once,
and nothing but the call log changes. -/
theorem runAll_loadHandlers (tb : Val) (ls : List LoadListener) (w : World) :
    ∃ extra : List Call,
      runAll (ls.map fun l => loadHandler l.map tb) w
          = (Except.ok (), { w with calls := w.calls ++ extra }) ∧
        setMaxBoundsArgs extra = List.replicate ls.length tb ∧
        notifications extra = [] ∧ flyToArgs extra = [] ∧ viewStateWrites extra = [] := by
  induction ls generalizing w with
  | nil => exact ⟨[], by simp [runAll, JS.ret], rfl, rfl, rfl, rfl⟩
  | cons l ls ih =>
    obtain ⟨extra, h1, h2, h3, h4, h5⟩ := ih
      { w with calls := w.calls ++
        [Call.console "log" [Val.str "Map loaded, setting max bounds."], Call.setMaxBounds tb,
         match l.map.setMaxBounds
            (w.calls ++ [Call.console "log" [Val.str "Map loaded, setting max bounds."]]) tb with
         | none => Call.console "log" [Val.str "Max bounds set successfully:", tb]
         | some err => Call.console "error" [Val.str "Error setting max bounds:", err]] }
    refine ⟨[Call.console "log" [Val.str "Map loaded, setting max bounds."], Call.setMaxBounds tb,
         match l.map.setMaxBounds
            (w.calls ++ [Call.console "log" [Val.str "Map loaded, setting max bounds."]]) tb with
         | none => Call.console "log" [Val.str "Max bounds set successfully:", tb]
         | some err => Call.console "error" [Val.str "Error setting max bounds:", err]] ++ extra,
      ?_, ?_, ?_, ?_, ?_⟩
    · simp only [List.map_cons, runAll, JS.andThen, loadHandler_eq, h1]
      simp
    · cases l.map.setMaxBounds
        (w.calls ++ [Call.console "log" [Val.str "Map loaded, setting max bounds."]]) tb <;>
        simp [setMaxBoundsArgs, List.replicate_succ] at h2 ⊢ <;> exact h2
    · cases l.map.setMaxBounds
        (w.calls ++ [Call.console "log" [Val.str "Map loaded, setting max bounds."]]) tb <;>
        simp [notifications] at h3 ⊢ <;> exact h3
    · cases l.map.setMaxBounds
        (w.calls ++ [Call.console "log" [Val.str "Map loaded, setting max bounds."]]) tb <;>
        simp [flyToArgs] at h4 ⊢ <;> exact h4
    · cases l.map.setMaxBounds
        (w.calls ++ [Call.console "log" [Val.str "Map loaded, setting max bounds."]]) tb <;>
        simp [viewStateWrites] at h5 ⊢ <;> exact h5

/-- The "load" signal delivered `n` times: every delivery reaches every registered
listener, and nothing but the call log changes. -/
theorem fireLoadTimes_eq (tb : Val) (n : Nat) (w : World) :
    ∃ extra : List Call,
      fireLoadTimes tb n w = (Except.ok (), { w with calls := w.calls ++ extra }) ∧
        setMaxBoundsArgs extra = List.replicate (n * w.loadListeners.length) tb ∧
        notifications extra = [] ∧ flyToArgs extra = [] ∧ viewStateWrites extra = [] := by
  induction n generalizing w with
  | zero => exact ⟨[], by simp [fireLoadTimes, JS.ret], by simp [setMaxBoundsArgs], rfl, rfl, rfl⟩
  | succ n ih =>
    obtain ⟨e1, h1, h2, h3, h4, h5⟩ := runAll_loadHandlers tb w.loadListeners w
    obtain ⟨e2, k1, k2, k3, k4, k5⟩ := ih { w with calls := w.calls ++ e1 }
    refine ⟨e1 ++ e2, ?_, ?_, ?_, ?_, ?_⟩
    · simp only [fireLoadTimes, JS.andThen, fireLoad, h1, k1]
      simp
    · simp only [setMaxBoundsArgs, List.filterMap_append] at h2 k2 ⊢
      rw [h2, k2, ← List.replicate_add]
      congr 1
      simp only [Nat.succ_mul]
      omega
    · simp only [notifications, List.filterMap_append] at h3 k3 ⊢
      rw [h3, k3]; rfl
    · simp only [flyToArgs, List.filterMap_append] at h4 k4 ⊢
      rw [h4, k4]; rfl
    · simp only [viewStateWrites, List.filterMap_append] at h5 k5 ⊢
      rw [h5, k5]; rfl


/-- C1: for every four values `w, s, e, n` (numbers in particular), `convertBounds`
applied to the array `[w, s, e, n]` returns, without throwing, exactly the array
`[[w, s], [e, n]]`. -/
theorem convertBounds_four (w s e n : Val) :
    convertBounds (Val.arr [w, s, e, n])
      = Except.ok (Val.arr [Val.arr [w, s], Val.arr [e, n]]) :=
  rfl

/-- C7: when `convertBounds(totalBounds)` returns `b`, the component is first rendered
with `viewState = { bounds: b, padding: 24 }` and no call made; that value has the
fields `bounds` and `padding` and no `longitude`, `latitude` or `zoom`; and issuing the
geolocation request does not change it. -/
theorem mountMap_initial_viewState (totalBounds b : Val)
    (hb : convertBounds totalBounds = Except.ok b) :
    mountMap totalBounds =
        Except.ok { calls := [], viewState := Val.obj [("bounds", b), ("padding", Val.num 24)],
                    mapMounted := true, loadListeners := [], snapListeners := [],
                    nextListener := 0 } ∧
      getProp (Val.obj [("bounds", b), ("padding", Val.num 24)]) "bounds" = Except.ok b ∧
      getProp (Val.obj [("bounds", b), ("padding", Val.num 24)]) "padding"
        = Except.ok (Val.num 24) ∧
      getProp (Val.obj [("bounds", b), ("padding", Val.num 24)]) "longitude"
        = Except.ok Val.undefined ∧
      getProp (Val.obj [("bounds", b), ("padding", Val.num 24)]) "latitude"
        = Except.ok Val.undefined ∧
      getProp (Val.obj [("bounds", b), ("padding", Val.num 24)]) "zoom"
        = Except.ok Val.undefined ∧
      ∀ w : World, (geolocationEffect true totalBounds w).2.viewState = w.viewState := by
  refine ⟨?_, ?_, ?_, ?_, ?_, ?_, ?_⟩
  · simp [mountMap, boundsViewState, hb]
  · simp [getProp, List.lookup]
  · simp [getProp, List.lookup]
  · simp [getProp, List.lookup]
  · simp [getProp, List.lookup]
  · simp [getProp, List.lookup]
  · intro w
    simp [geolocationEffect, JS.emit]

/-- Witness for C7 at the sample bounding box. -/
theorem mountMap_initial_viewState_witness :
    convertBounds sampleBounds
        = Except.ok (Val.arr [Val.arr [Val.num (-10), Val.num 35],
                              Val.arr [Val.num 5, Val.num 44]]) ∧
      mountMap sampleBounds =
        Except.ok { calls := [],
                    viewState := Val.obj [("bounds", Val.arr [Val.arr [Val.num (-10), Val.num 35],
                                            Val.arr [Val.num 5, Val.num 44]]),
                                          ("padding", Val.num 24)],
                    mapMounted := true, loadListeners := [], snapListeners := [],
                    nextListener := 0 } :=
  ⟨rfl, (mountMap_initial_viewState sampleBounds
    (Val.arr [Val.arr [Val.num (-10), Val.num 35], Val.arr [Val.num 5, Val.num 44]]) rfl).1⟩

/-- C5: for every mounted world `w` (whatever its `viewState`) and every position whose
`coords` carry `longitude = lon` and `latitude = lat`, the success callback returns
after exactly one `setViewState` call and leaves
`viewState = { longitude: lon, latitude: lat, zoom: 12, padding: 24 }`, a value with no
`bounds` field; a move event replaces `viewState` with the reported value, and a
success arriving after it still ends in the same value. -/
theorem geoSuccess_replaces_viewState (w : World) (position coords lon lat : Val)
    (hm : w.mapMounted = true)
    (hc : getProp position "coords" = Except.ok coords)
    (hlon : getProp coords "longitude" = Except.ok lon)
    (hlat : getProp coords "latitude" = Except.ok lat) :
    geoSuccess position w =
        (Except.ok (),
          { w with
            calls := w.calls ++ [Call.setViewState
              (Val.obj [("longitude", lon), ("latitude", lat), ("zoom", Val.num 12),
                        ("padding", Val.num 24)])],
            viewState := Val.obj [("longitude", lon), ("latitude", lat), ("zoom", Val.num 12),
                                  ("padding", Val.num 24)] }) ∧
      getProp (Val.obj [("longitude", lon), ("latitude", lat), ("zoom", Val.num 12),
                        ("padding", Val.num 24)]) "bounds" = Except.ok Val.undefined ∧
      ∀ evt next : Val, getProp evt "viewState" = Except.ok next →
        (onMove evt w).2.viewState = next ∧
        (geoSuccess position (onMove evt w).2).2.viewState =
          Val.obj [("longitude", lon), ("latitude", lat), ("zoom", Val.num 12),
                   ("padding", Val.num 24)] := by
  refine ⟨?_, ?_, ?_⟩
  · simp [geoSuccess, bind, JS.andThen, JS.lift, setViewState, hc, hlon, hlat, hm]
  · simp [getProp, List.lookup]
  · intro evt next hn
    simp [geoSuccess, onMove, bind, JS.andThen, JS.lift, setViewState, hc, hlon, hlat, hm, hn]

/-- Witness for C5: `Success{lon: -0.1, lat: 51.5}` applied to the first-rendered state
over the sample bounds. -/
theorem geoSuccess_replaces_viewState_witness :
    (blankWorld (Val.obj [("bounds", sampleBounds), ("padding", Val.num 24)])).mapMounted = true ∧
      getProp (positionOf (Val.num (-0.1)) (Val.num 51.5)) "coords"
        = Except.ok (Val.obj [("latitude", Val.num 51.5), ("longitude", Val.num (-0.1))]) ∧
      getProp (Val.obj [("latitude", Val.num 51.5), ("longitude", Val.num (-0.1))]) "longitude"
        = Except.ok (Val.num (-0.1)) ∧
      getProp (Val.obj [("latitude", Val.num 51.5), ("longitude", Val.num (-0.1))]) "latitude"
        = Except.ok (Val.num 51.5) ∧
      (geoSuccess (positionOf (Val.num (-0.1)) (Val.num 51.5))
          (blankWorld (Val.obj [("bounds", sampleBounds), ("padding", Val.num 24)]))).2.viewState
        = Val.obj [("longitude", Val.num (-0.1)), ("latitude", Val.num 51.5),
                   ("zoom", Val.num 12), ("padding", Val.num 24)] :=
  ⟨rfl, by simp [getProp, positionOf, List.lookup], by simp [getProp, List.lookup],
    by simp [getProp, List.lookup],
    congrArg (fun r => r.2.viewState)
      (geoSuccess_replaces_viewState
        (blankWorld (Val.obj [("bounds", sampleBounds), ("padding", Val.num 24)]))
        (positionOf (Val.num (-0.1)) (Val.num 51.5))
        (Val.obj [("latitude", Val.num 51.5), ("longitude", Val.num (-0.1))])
        (Val.num (-0.1)) (Val.num 51.5) rfl (by simp [getProp, positionOf, List.lookup])
        (by simp [getProp, List.lookup]) (by simp [getProp, List.lookup])).1⟩

/-- C6: for every mounted world `w`, every failure reason, and `totalBounds` with
`convertBounds(totalBounds) = b`, both the error callback and the unsupported branch
return after one `setViewState` call, leave `viewState = { bounds: b, padding: 24 }`
and raise no notification; that value is the first-rendered one, so on the
first-rendered state nothing changes, and a second application changes nothing. -/
theorem geoFailure_falls_back (w : World) (totalBounds b reason : Val)
    (hm : w.mapMounted = true) (hb : convertBounds totalBounds = Except.ok b) :
    geoError totalBounds reason w =
        (Except.ok (),
          { w with
            calls := w.calls ++
              [Call.console "error" [Val.str "Error getting user location:", reason],
               Call.setViewState (Val.obj [("bounds", b), ("padding", Val.num 24)])],
            viewState := Val.obj [("bounds", b), ("padding", Val.num 24)] }) ∧
      geolocationEffect false totalBounds w =
        (Except.ok (),
          { w with
            calls := w.calls ++
              [Call.console "warn" [Val.str "Geolocation is not supported by this browser."],
               Call.setViewState (Val.obj [("bounds", b), ("padding", Val.num 24)])],
            viewState := Val.obj [("bounds", b), ("padding", Val.num 24)] }) ∧
      (∀ w0 : World, mountMap totalBounds = Except.ok w0 →
        (geoError totalBounds reason w0).2.viewState = w0.viewState ∧
        (geolocationEffect false totalBounds w0).2.viewState = w0.viewState) ∧
      (geoError totalBounds reason (geoError totalBounds reason w).2).2.viewState
        = (geoError totalBounds reason w).2.viewState ∧
      (geolocationEffect false totalBounds (geolocationEffect false totalBounds w).2).2.viewState
        = (geolocationEffect false totalBounds w).2.viewState ∧
      notifications (geoError totalBounds reason w).2.calls = notifications w.calls ∧
      notifications (geolocationEffect false totalBounds w).2.calls = notifications w.calls := by
  have hv : boundsViewState totalBounds
      = Except.ok (Val.obj [("bounds", b), ("padding", Val.num 24)]) := by
    simp [boundsViewState, hb]
  refine ⟨?_, ?_, ?_, ?_, ?_, ?_, ?_⟩
  · simp [geoError, bind, JS.andThen, JS.lift, JS.emit, setViewState, hv, hm]
  · simp [geolocationEffect, bind, JS.andThen, JS.lift, JS.emit, setViewState, hv, hm]
  · intro w0 h0
    simp only [mountMap, hv] at h0
    cases h0
    simp [geoError, geolocationEffect, bind, JS.andThen, JS.lift, JS.emit, setViewState, hv]
  · simp [geoError, bind, JS.andThen, JS.lift, JS.emit, setViewState, hv, hm]
  · simp [geolocationEffect, bind, JS.andThen, JS.lift, JS.emit, setViewState, hv, hm]
  · simp [geoError, bind, JS.andThen, JS.lift, JS.emit, setViewState, hv, hm, notifications,
      List.filterMap_append]
  · simp [geolocationEffect, bind, JS.andThen, JS.lift, JS.emit, setViewState, hv, hm,
      notifications, List.filterMap_append]

/-- Witness for C6: a timeout reported after the user has moved the map. -/
theorem geoFailure_falls_back_witness :
    (blankWorld (Val.obj [("longitude", Val.num 1), ("latitude", Val.num 40),
        ("zoom", Val.num 9)])).mapMounted = true ∧
      convertBounds sampleBounds
        = Except.ok (Val.arr [Val.arr [Val.num (-10), Val.num 35],
                              Val.arr [Val.num 5, Val.num 44]]) ∧
      (geoError sampleBounds (Val.obj [("code", Val.num 3)])
          (blankWorld (Val.obj [("longitude", Val.num 1), ("latitude", Val.num 40),
                                ("zoom", Val.num 9)]))).2.viewState
        = Val.obj [("bounds", Val.arr [Val.arr [Val.num (-10), Val.num 35],
                                       Val.arr [Val.num 5, Val.num 44]]),
                   ("padding", Val.num 24)] :=
  ⟨rfl, rfl, congrArg (fun r => r.2.viewState)
    (geoFailure_falls_back
      (blankWorld (Val.obj [("longitude", Val.num 1), ("latitude", Val.num 40),
                            ("zoom", Val.num 9)]))
      sampleBounds
      (Val.arr [Val.arr [Val.num (-10), Val.num 35], Val.arr [Val.num 5, Val.num 44]])
      (Val.obj [("code", Val.num 3)]) rfl rfl).1⟩

/-- C10, as stated, fails: after `MaplibreMap` is unmounted, a late geolocation
success still performs a `setViewState` call, and so does a late error. -/
theorem late_geolocation_still_calls_setViewState :
    viewStateWrites
        (geoSuccess (positionOf (Val.num (-0.1)) (Val.num 51.5))
          (unmountMap (blankWorld (Val.obj [("bounds", sampleBounds),
            ("padding", Val.num 24)]))).2).2.calls
      = [Val.obj [("longitude", Val.num (-0.1)), ("latitude", Val.num 51.5),
                  ("zoom", Val.num 12), ("padding", Val.num 24)]] ∧
    viewStateWrites
        (geoError sampleBounds (Val.obj [("code", Val.num 3)])
          (unmountMap (blankWorld (Val.obj [("bounds", sampleBounds),
            ("padding", Val.num 24)]))).2).2.calls
      = [Val.obj [("bounds", Val.arr [Val.arr [Val.num (-10), Val.num 35],
                                      Val.arr [Val.num 5, Val.num 44]]),
                  ("padding", Val.num 24)]] ∧
    viewStateWrites
        (geoSuccess (positionOf (Val.num (-0.1)) (Val.num 51.5))
          (unmountMap (blankWorld (Val.obj [("bounds", sampleBounds),
            ("padding", Val.num 24)]))).2).2.calls ≠ [] :=
  ⟨rfl, rfl, by simp [viewStateWrites, geoSuccess, positionOf, getProp, List.lookup, bind,
    JS.andThen, JS.lift, setViewState, unmountMap, blankWorld]⟩

/-- C10, amended: the callbacks do not look at whether `MaplibreMap` is mounted.  In an
unmounted world a success and an error each perform exactly the one `setViewState`
call they perform when mounted, with the same value; the `viewState` cell keeps its
value only because React discards the update. -/
theorem late_geolocation_outcome (w : World) (position coords lon lat totalBounds b reason : Val)
    (hm : w.mapMounted = false)
    (hc : getProp position "coords" = Except.ok coords)
    (hlon : getProp coords "longitude" = Except.ok lon)
    (hlat : getProp coords "latitude" = Except.ok lat)
    (hb : convertBounds totalBounds = Except.ok b) :
    viewStateWrites (geoSuccess position w).2.calls =
        viewStateWrites w.calls ++
          [Val.obj [("longitude", lon), ("latitude", lat), ("zoom", Val.num 12),
                    ("padding", Val.num 24)]] ∧
      viewStateWrites (geoError totalBounds reason w).2.calls =
        viewStateWrites w.calls ++ [Val.obj [("bounds", b), ("padding", Val.num 24)]] ∧
      (geoSuccess position w).2.viewState = w.viewState ∧
      (geoError totalBounds reason w).2.viewState = w.viewState := by
  have hv : boundsViewState totalBounds
      = Except.ok (Val.obj [("bounds", b), ("padding", Val.num 24)]) := by
    simp [boundsViewState, hb]
  refine ⟨?_, ?_, ?_, ?_⟩
  · simp [geoSuccess, bind, JS.andThen, JS.lift, setViewState, hc, hlon, hlat,
      viewStateWrites, List.filterMap_append]
  · simp [geoError, bind, JS.andThen, JS.lift, JS.emit, setViewState, hv, viewStateWrites,
      List.filterMap_append]
  · simp [geoSuccess, bind, JS.andThen, JS.lift, setViewState, hc, hlon, hlat, hm]
  · simp [geoError, bind, JS.andThen, JS.lift, JS.emit, setViewState, hv, hm]

/-- Witness for the amended C10: a success that arrives after unmount. -/
theorem late_geolocation_outcome_witness :
    (unmountMap (blankWorld Val.null)).2.mapMounted = false ∧
    viewStateWrites
        (geoSuccess (positionOf (Val.num 2) (Val.num 41)) (unmountMap (blankWorld Val.null)).2).2.calls
      = viewStateWrites (unmountMap (blankWorld Val.null)).2.calls ++
          [Val.obj [("longitude", Val.num 2), ("latitude", Val.num 41), ("zoom", Val.num 12),
                    ("padding", Val.num 24)]] :=
  ⟨rfl, (late_geolocation_outcome (unmountMap (blankWorld Val.null)).2
    (positionOf (Val.num 2) (Val.num 41))
    (Val.obj [("latitude", Val.num 41), ("longitude", Val.num 2)])
    (Val.num 2) (Val.num 41) sampleBounds
    (Val.arr [Val.arr [Val.num (-10), Val.num 35], Val.arr [Val.num 5, Val.num 44]])
    Val.undefined rfl (by simp [getProp, positionOf, List.lookup])
    (by simp [getProp, List.lookup]) (by simp [getProp, List.lookup]) rfl).1⟩

/-- C9: when `setMaxBounds(totalBounds)` throws `err` on a delivery of "load", the
handler still returns; it has called `setMaxBounds` once, with `totalBounds`, raised no
notification and written no view state, and only logged the error.  Whether or not the
call throws, the handler returns and its one `setMaxBounds` call has the argument
`totalBounds`. -/
theorem loadHandler_setMaxBounds_throws (map : Engine) (totalBounds err : Val) (w : World)
    (hthrow : map.setMaxBounds
      (w.calls ++ [Call.console "log" [Val.str "Map loaded, setting max bounds."]]) totalBounds
        = some err) :
    loadHandler map totalBounds w =
        (Except.ok (), { w with calls := w.calls ++
          [Call.console "log" [Val.str "Map loaded, setting max bounds."],
           Call.setMaxBounds totalBounds,
           Call.console "error" [Val.str "Error setting max bounds:", err]] }) ∧
      setMaxBoundsArgs (loadHandler map totalBounds w).2.calls
        = setMaxBoundsArgs w.calls ++ [totalBounds] ∧
      notifications (loadHandler map totalBounds w).2.calls = notifications w.calls ∧
      viewStateWrites (loadHandler map totalBounds w).2.calls = viewStateWrites w.calls ∧
      (loadHandler map totalBounds w).2.viewState = w.viewState ∧
      ∀ (map2 : Engine) (w2 : World),
        (loadHandler map2 totalBounds w2).1 = Except.ok () ∧
        setMaxBoundsArgs (loadHandler map2 totalBounds w2).2.calls
          = setMaxBoundsArgs w2.calls ++ [totalBounds] := by
  refine ⟨?_, ?_, ?_, ?_, ?_, ?_⟩
  · rw [loadHandler_eq, hthrow]
  · rw [loadHandler_eq, hthrow]
    simp [setMaxBoundsArgs, List.filterMap_append]
  · rw [loadHandler_eq, hthrow]
    simp [notifications, List.filterMap_append]
  · rw [loadHandler_eq, hthrow]
    simp [viewStateWrites, List.filterMap_append]
  · rw [loadHandler_eq]
  · intro map2 w2
    rw [loadHandler_eq]
    refine ⟨rfl, ?_⟩
    cases map2.setMaxBounds
      (w2.calls ++ [Call.console "log" [Val.str "Map loaded, setting max bounds."]])
      totalBounds <;> simp [setMaxBoundsArgs, List.filterMap_append]

/-- Witness for C9: an engine whose `setMaxBounds` throws "boom". -/
theorem loadHandler_setMaxBounds_throws_witness :
    throwingEngine.setMaxBounds
        ((blankWorld Val.null).calls
          ++ [Call.console "log" [Val.str "Map loaded, setting max bounds."]]) sampleBounds
        = some (Val.str "boom") ∧
      loadHandler throwingEngine sampleBounds (blankWorld Val.null) =
        (Except.ok (), { blankWorld Val.null with calls := (blankWorld Val.null).calls ++
          [Call.console "log" [Val.str "Map loaded, setting max bounds."],
           Call.setMaxBounds sampleBounds,
           Call.console "error" [Val.str "Error setting max bounds:", Val.str "boom"]] }) :=
  ⟨rfl, (loadHandler_setMaxBounds_throws throwingEngine sampleBounds (Val.str "boom")
    (blankWorld Val.null) rfl).1⟩

/-- C2, as stated, fails: with the enforcer mounted once, delivering "load" twice calls
`setMaxBounds` twice, not once. -/
theorem load_twice_calls_setMaxBounds_twice :
    setMaxBoundsArgs
        (fireLoadTimes sampleBounds 2
          (enforcerEffect (some quietRef) (blankWorld Val.null)).2).2.calls
      = [sampleBounds, sampleBounds] ∧
    (setMaxBoundsArgs
        (fireLoadTimes sampleBounds 2
          (enforcerEffect (some quietRef) (blankWorld Val.null)).2).2.calls).length ≠ 1 :=
  ⟨rfl, by decide⟩

/-- C2, amended: with the enforcer mounted once on an engine that has no "load"
listener yet, delivering "load" `n` times returns and calls `setMaxBounds` exactly `n`
times, each time with `totalBounds`: once per delivery, and so exactly once in total
when the engine delivers "load" exactly once. -/
theorem fireLoadTimes_calls_setMaxBounds (w : World) (ref : MapRef) (map : Engine)
    (totalBounds : Val) (n : Nat)
    (hfresh : w.loadListeners = []) (href : ref.getMap = some (some map)) :
    (fireLoadTimes totalBounds n (enforcerEffect (some ref) w).2).1 = Except.ok () ∧
      setMaxBoundsArgs (fireLoadTimes totalBounds n (enforcerEffect (some ref) w).2).2.calls
        = setMaxBoundsArgs w.calls ++ List.replicate n totalBounds := by
  obtain ⟨extra, h1, h2, -⟩ := fireLoadTimes_eq totalBounds n (enforcerEffect (some ref) w).2
  rw [h1]
  refine ⟨rfl, ?_⟩
  simp only [setMaxBoundsArgs, List.filterMap_append] at h2 ⊢
  rw [h2]
  simp [enforcerEffect, href, hfresh]

/-- Witness for the amended C2: three deliveries, three calls. -/
theorem fireLoadTimes_calls_setMaxBounds_witness :
    (blankWorld Val.null).loadListeners = [] ∧
      quietRef.getMap = some (some quietEngine) ∧
      setMaxBoundsArgs
          (fireLoadTimes sampleBounds 3
            (enforcerEffect (some quietRef) (blankWorld Val.null)).2).2.calls
        = setMaxBoundsArgs (blankWorld Val.null).calls ++ List.replicate 3 sampleBounds :=
  ⟨rfl, rfl, (fireLoadTimes_calls_setMaxBounds (blankWorld Val.null) quietRef quietEngine
    sampleBounds 3 rfl rfl).2⟩

/-- C8 at the failing input: both children are mounted and unmounted, then "load" is
delivered once.  The cleanup `map.off("load")` returned without error but removed
nothing, so `setMaxBounds(totalBounds)` is called once.  A "map.snapTo" signal
delivered after the unmount reaches no handler: no `flyTo`, no notification. -/
theorem load_after_unmount_still_calls_setMaxBounds :
    (mountThenUnmountChildren (some quietRef) (blankWorld Val.null)).1 = Except.ok () ∧
    setMaxBoundsArgs
        (fireLoad sampleBounds
          (mountThenUnmountChildren (some quietRef) (blankWorld Val.null)).2).2.calls
      = [sampleBounds] ∧
    flyToArgs
        (dispatchSnapTo (snapToEvent (Val.obj [("lat", Val.num 48.85), ("lng", Val.num 2.35)]))
          (mountThenUnmountChildren (some quietRef) (blankWorld Val.null)).2).2.calls
      = [] ∧
    notifications
        (dispatchSnapTo (snapToEvent (Val.obj [("lat", Val.num 48.85), ("lng", Val.num 2.35)]))
          (mountThenUnmountChildren (some throwingRef) (blankWorld Val.null)).2).2.calls
      = [] :=
  ⟨rfl, rfl, rfl, rfl⟩

/-- The "map.snapTo" handler on an event whose detail carries `lat` and `lng`, with a
callable `flyTo`: it returns, it calls `flyTo` once with
`{ center: [lng, lat], zoom: 14 }`, and nothing but the call log changes. -/
theorem snapHandler_flyTo_available (ref : MapRef) (fly : EngineCall)
    (event d lat lng : Val) (w : World) (hfly : ref.flyTo = some fly)
    (hd : getProp event "detail" = Except.ok d)
    (hlat : getProp d "lat" = Except.ok lat) (hlng : getProp d "lng" = Except.ok lng) :
    ∃ extra : List Call,
      snapHandler (some ref) event w = (Except.ok (), { w with calls := w.calls ++ extra }) ∧
        flyToArgs extra = [Val.obj [("center", Val.arr [lng, lat]), ("zoom", Val.num 14)]] := by
  cases hf : fly (w.calls ++
      [Call.console "log" [Val.str "executing `map.snapTo` event with maplibre"]])
      (Val.obj [("center", Val.arr [lng, lat]), ("zoom", Val.num 14)]) with
  | none =>
    refine ⟨[Call.console "log" [Val.str "executing `map.snapTo` event with maplibre"],
      Call.flyTo (Val.obj [("center", Val.arr [lng, lat]), ("zoom", Val.num 14)])], ?_, rfl⟩
    simp [snapHandler, bind, JS.andThen, JS.lift, JS.emit, JS.tryCatch, callFlyTo, callEngine,
      hd, hlat, hlng, hfly, hf]
  | some err =>
    refine ⟨[Call.console "log" [Val.str "executing `map.snapTo` event with maplibre"],
      Call.flyTo (Val.obj [("center", Val.arr [lng, lat]), ("zoom", Val.num 14)]),
      Call.console "error" [err],
      Call.enqueueSnackbar (Val.str "Unexpected error while attempting map navigation")
        (Val.obj [("variant", Val.str "error")])], ?_, rfl⟩
    simp [snapHandler, bind, JS.andThen, JS.lift, JS.emit, JS.tryCatch, callFlyTo, callEngine,
      hd, hlat, hlng, hfly, hf]

/-- Requests delivered one after the other to a single mounted listener whose `flyTo`
is callable: the `flyTo` calls are the requests' targets, in arrival order. -/
theorem dispatchAll_flyTo (l : SnapListener) (ref : MapRef) (fly : EngineCall)
    (hl : l.map = some ref) (hfly : ref.flyTo = some fly) (reqs : List (Val × Val))
    (w : World) (hw : w.snapListeners = [l]) :
    ∃ extra : List Call,
      dispatchAll
          (reqs.map fun r => snapToEvent (Val.obj [("lat", r.1), ("lng", r.2)])) w
          = (Except.ok (), { w with calls := w.calls ++ extra }) ∧
        flyToArgs extra
          = reqs.map fun r => Val.obj [("center", Val.arr [r.2, r.1]), ("zoom", Val.num 14)] := by
  induction reqs generalizing w with
  | nil => exact ⟨[], by simp [dispatchAll, JS.ret], rfl⟩
  | cons r reqs ih =>
    obtain ⟨c, v, m, ll, sl, nx⟩ := w
    simp only at hw
    subst hw
    obtain ⟨e1, h1, h2⟩ := snapHandler_flyTo_available ref fly
      (snapToEvent (Val.obj [("lat", r.1), ("lng", r.2)]))
      (Val.obj [("lat", r.1), ("lng", r.2)]) r.1 r.2
      { calls := c, viewState := v, mapMounted := m, loadListeners := ll, snapListeners := [l],
        nextListener := nx } hfly
      (by simp [snapToEvent, getProp, List.lookup]) (by simp [getProp, List.lookup])
      (by simp [getProp, List.lookup])
    obtain ⟨e2, k1, k2⟩ := ih
      { calls := c ++ e1, viewState := v, mapMounted := m, loadListeners := ll,
        snapListeners := [l], nextListener := nx } rfl
    refine ⟨e1 ++ e2, ?_, ?_⟩
    · simp only [List.map_cons, dispatchAll, JS.andThen, dispatchSnapTo, List.map_nil,
        reportAll, JS.tryCatch, hl, h1, JS.ret, k1]
      simp
    · simp only [flyToArgs, List.filterMap_append] at h2 k2 ⊢
      rw [h2, k2]
      simp

/-- C3, as stated, fails: the handler reads `lat` and `lng` from the event detail, so
the payload `{ latitude: 48.85, longitude: 2.35 }` yields
`flyTo({ center: [undefined, undefined], zoom: 14 })`, not
`flyTo({ center: [2.35, 48.85], zoom: 14 })`. -/
theorem snapTo_latitude_longitude_payload :
    flyToArgs
        (dispatchSnapTo
          (snapToEvent (Val.obj [("latitude", Val.num 48.85), ("longitude", Val.num 2.35)]))
          (snappingEffect (some quietRef) (blankWorld Val.null)).2).2.calls
      = [Val.obj [("center", Val.arr [Val.undefined, Val.undefined]), ("zoom", Val.num 14)]] ∧
    flyToArgs
        (dispatchSnapTo
          (snapToEvent (Val.obj [("latitude", Val.num 48.85), ("longitude", Val.num 2.35)]))
          (snappingEffect (some quietRef) (blankWorld Val.null)).2).2.calls
      ≠ [Val.obj [("center", Val.arr [Val.num 2.35, Val.num 48.85]), ("zoom", Val.num 14)]] :=
  ⟨rfl, fun h => by
    have h2 : [Val.obj [("center", Val.arr [Val.undefined, Val.undefined]),
        ("zoom", Val.num 14)]]
        = [Val.obj [("center", Val.arr [Val.num 2.35, Val.num 48.85]),
        ("zoom", Val.num 14)]] := h
    simp at h2⟩

/-- C3, amended: with one listener mounted and `flyTo` callable, in every world `w`
(whatever its `viewState` and its earlier calls, `setMaxBounds` among them or not), a
"map.snapTo" event whose detail carries `lat` and `lng` adds exactly one `flyTo` call,
with `{ center: [lng, lat], zoom: 14 }`; and requests delivered one after the other
all return and add their `flyTo` calls in arrival order, one per request. -/
theorem snapTo_requests_flyTo (w : World) (l : SnapListener) (ref : MapRef) (fly : EngineCall)
    (event d lat lng : Val) (reqs : List (Val × Val))
    (hw : w.snapListeners = [l]) (hl : l.map = some ref) (hfly : ref.flyTo = some fly)
    (hd : getProp event "detail" = Except.ok d)
    (hlat : getProp d "lat" = Except.ok lat) (hlng : getProp d "lng" = Except.ok lng) :
    flyToArgs (dispatchSnapTo event w).2.calls
        = flyToArgs w.calls ++
            [Val.obj [("center", Val.arr [lng, lat]), ("zoom", Val.num 14)]] ∧
      (dispatchAll
          (reqs.map fun r => snapToEvent (Val.obj [("lat", r.1), ("lng", r.2)])) w).1
        = Except.ok () ∧
      flyToArgs (dispatchAll
          (reqs.map fun r => snapToEvent (Val.obj [("lat", r.1), ("lng", r.2)])) w).2.calls
        = flyToArgs w.calls ++
            reqs.map fun r => Val.obj [("center", Val.arr [r.2, r.1]), ("zoom", Val.num 14)] := by
  obtain ⟨e1, h1, h2⟩ := snapHandler_flyTo_available ref fly event d lat lng w hfly hd hlat hlng
  obtain ⟨e2, k1, k2⟩ := dispatchAll_flyTo l ref fly hl hfly reqs w hw
  refine ⟨?_, ?_, ?_⟩
  · simp only [dispatchSnapTo, hw, List.map_cons, List.map_nil, reportAll, JS.andThen,
      JS.tryCatch, hl, h1, JS.ret, flyToArgs, List.filterMap_append] at h2 ⊢
    rw [h2]
  · rw [k1]
  · rw [k1]
    simp only [flyToArgs, List.filterMap_append] at k2 ⊢
    rw [k2]

/-- Witness for the amended C3: the request `{ lat: 48.85, lng: 2.35 }`, followed by a
second one. -/
theorem snapTo_requests_flyTo_witness :
    (snappingEffect (some quietRef) (blankWorld Val.null)).2.snapListeners
        = [{ id := 0, map := some quietRef }] ∧
      flyToArgs
          (dispatchSnapTo
            (snapToEvent (Val.obj [("lat", Val.num 48.85), ("lng", Val.num 2.35)]))
            (snappingEffect (some quietRef) (blankWorld Val.null)).2).2.calls
        = flyToArgs (snappingEffect (some quietRef) (blankWorld Val.null)).2.calls ++
            [Val.obj [("center", Val.arr [Val.num 2.35, Val.num 48.85]),
                      ("zoom", Val.num 14)]] :=
  ⟨rfl, (snapTo_requests_flyTo (snappingEffect (some quietRef) (blankWorld Val.null)).2
    { id := 0, map := some quietRef } quietRef (fun _ _ => none)
    (snapToEvent (Val.obj [("lat", Val.num 48.85), ("lng", Val.num 2.35)]))
    (Val.obj [("lat", Val.num 48.85), ("lng", Val.num 2.35)]) (Val.num 48.85) (Val.num 2.35)
    [(Val.num 48.85, Val.num 2.35), (Val.num 40, Val.num (-3))]
    rfl rfl rfl (by simp [snapToEvent, getProp, List.lookup]) (by simp [getProp, List.lookup])
    (by simp [getProp, List.lookup])).1⟩

/-- C4: on an event whose detail carries `lat` and `lng`, the "map.snapTo" handler
always returns (no exception leaves it), writes no view state and calls `flyTo` at
most once.  When the `flyTo` call throws it raises exactly one notification,
"Unexpected error while attempting map navigation" with variant "error"; this covers
a map reference that is not available, where no `flyTo` call is made at all.  When the
`flyTo` call returns it raises none. -/
theorem snapHandler_flyTo_throws (map : Option MapRef) (event d lat lng : Val) (w : World)
    (hd : getProp event "detail" = Except.ok d)
    (hlat : getProp d "lat" = Except.ok lat) (hlng : getProp d "lng" = Except.ok lng) :
    (snapHandler map event w).1 = Except.ok () ∧
      (snapHandler map event w).2.viewState = w.viewState ∧
      viewStateWrites (snapHandler map event w).2.calls = viewStateWrites w.calls ∧
      (flyToArgs (snapHandler map event w).2.calls).length ≤ (flyToArgs w.calls).length + 1 ∧
      (∀ err : Val,
        (callFlyTo map (Val.obj [("center", Val.arr [lng, lat]), ("zoom", Val.num 14)])
          (JS.emit (Call.console "log"
            [Val.str "executing `map.snapTo` event with maplibre"]) w).2).1
          = Except.error err →
        notifications (snapHandler map event w).2.calls
          = notifications w.calls ++
              [(Val.str "Unexpected error while attempting map navigation",
                Val.obj [("variant", Val.str "error")])]) ∧
      ((callFlyTo map (Val.obj [("center", Val.arr [lng, lat]), ("zoom", Val.num 14)])
          (JS.emit (Call.console "log"
            [Val.str "executing `map.snapTo` event with maplibre"]) w).2).1
          = Except.ok () →
        notifications (snapHandler map event w).2.calls = notifications w.calls) ∧
      (map = none →
        notifications (snapHandler map event w).2.calls
          = notifications w.calls ++
              [(Val.str "Unexpected error while attempting map navigation",
                Val.obj [("variant", Val.str "error")])] ∧
        flyToArgs (snapHandler map event w).2.calls = flyToArgs w.calls) := by
  have key : ∀ r : Except Val Unit × World,
      callFlyTo map (Val.obj [("center", Val.arr [lng, lat]), ("zoom", Val.num 14)])
        (JS.emit (Call.console "log"
          [Val.str "executing `map.snapTo` event with maplibre"]) w).2 = r →
      snapHandler map event w =
        match r with
        | (Except.ok _, w1) => (Except.ok (), w1)
        | (Except.error e, w1) =>
          (Except.ok (), { w1 with calls := w1.calls ++
            [Call.console "error" [e],
             Call.enqueueSnackbar (Val.str "Unexpected error while attempting map navigation")
               (Val.obj [("variant", Val.str "error")])] }) := by
    intro r hr
    subst hr
    simp only [snapHandler, bind, JS.andThen, JS.lift, JS.emit, JS.tryCatch, hd, hlat, hlng]
    split <;> simp_all
  match map with
  | none =>
    have hk := key _ rfl
    simp only [callFlyTo, JS.lift, JS.emit] at hk
    rw [hk]
    simp [callFlyTo, JS.lift, JS.emit, notifications, viewStateWrites, flyToArgs,
      List.filterMap_append, typeError]
  | some ref =>
    cases hf : ref.flyTo with
    | none =>
      have hk := key _ rfl
      simp only [callFlyTo, hf, JS.lift, JS.emit] at hk
      rw [hk]
      simp [callFlyTo, hf, JS.lift, JS.emit, notifications, viewStateWrites, flyToArgs,
        List.filterMap_append, typeError]
    | some fly =>
      cases ho : fly (w.calls ++
          [Call.console "log" [Val.str "executing `map.snapTo` event with maplibre"]])
          (Val.obj [("center", Val.arr [lng, lat]), ("zoom", Val.num 14)]) with
      | none =>
        have hk := key _ rfl
        simp only [callFlyTo, hf, callEngine, JS.emit, ho] at hk
        rw [hk]
        simp [callFlyTo, hf, callEngine, JS.emit, ho, notifications, viewStateWrites,
          flyToArgs, List.filterMap_append]
      | some err =>
        have hk := key _ rfl
        simp only [callFlyTo, hf, callEngine, JS.emit, ho] at hk
        rw [hk]
        simp [callFlyTo, hf, callEngine, JS.emit, ho, notifications, viewStateWrites,
          flyToArgs, List.filterMap_append]

/-- Witness for C4: a `flyTo` that throws "boom" gives one notification. -/
theorem snapHandler_flyTo_throws_witness :
    getProp (snapToEvent (Val.obj [("lat", Val.num 48.85), ("lng", Val.num 2.35)])) "detail"
        = Except.ok (Val.obj [("lat", Val.num 48.85), ("lng", Val.num 2.35)]) ∧
      notifications
          (snapHandler (some throwingRef)
            (snapToEvent (Val.obj [("lat", Val.num 48.85), ("lng", Val.num 2.35)]))
            (blankWorld Val.null)).2.calls
        = notifications (blankWorld Val.null).calls ++
            [(Val.str "Unexpected error while attempting map navigation",
              Val.obj [("variant", Val.str "error")])] :=
  ⟨by simp [snapToEvent, getProp, List.lookup],
    (snapHandler_flyTo_throws (some throwingRef)
      (snapToEvent (Val.obj [("lat", Val.num 48.85), ("lng", Val.num 2.35)]))
      (Val.obj [("lat", Val.num 48.85), ("lng", Val.num 2.35)]) (Val.num 48.85) (Val.num 2.35)
      (blankWorld Val.null) (by simp [snapToEvent, getProp, List.lookup])
      (by simp [getProp, List.lookup]) (by simp [getProp, List.lookup])).2.2.2.2.1
      (Val.str "boom") rfl⟩

end MaplibreMap
